import Mathlib

/-!
Shallow embedding of the item-management service (src/app.py): the Item data
model, the in-memory Registry (a Lean list), the File Store (a JSON document),
the database gateway outcomes (modelled as oracle parameters, since the
database is an external collaborator), and the four mutating/reading request
handlers add_item, get_snapshot, remove_item, clear_items.

Python floats are modelled as exact rationals; the duplicate-check tolerance
abs(a - b) < 0.01 becomes fabs (a - b) < 1/100.
-/

namespace ItemApp

/-- Computable absolute value on the rationals, mirroring Python abs on the
cost floats (Mathlib's lattice-based abs does not kernel-reduce). -/
def fabs (q : ℚ) : ℚ := if q < 0 then -q else q

/-- The Item pydantic model of app.py: id is Optional[int] (None until
assigned), code a string, unit and age integers, cost a float. -/
structure Item where
  id : Option Int
  code : String
  unit : Int
  age : Int
  cost : ℚ
deriving DecidableEq, Repr

/-- Body of POST /add (AddItemRequest in app.py): the client supplies an id
together with the four item fields. -/
structure AddItemRequest where
  id : Int
  code : String
  unit : Int
  age : Int
  cost : ℚ
deriving DecidableEq, Repr

/-- An HTTPException as raised by the handlers: status code plus detail. -/
structure HTTPError where
  statusCode : Nat
  detail : String
deriving DecidableEq, Repr

/-- check_duplicate_in_memory of app.py: linear scan of the store for an item
with equal code, unit and age whose cost is within strict 0.01. -/
def check_duplicate_in_memory (store : List Item) (code : String) (unit : Int)
    (age : Int) (cost : ℚ) : Bool :=
  store.any fun item =>
    item.code == code && item.unit == unit && item.age == age &&
      decide (fabs (item.cost - cost) < 1 / 100)

/-- Possible raw outcomes of the stored-procedure insert, as seen inside
call_stored_procedure: the procedure returned a result row, fetchone returned
no row, the driver raised a psycopg2 error, or get_db_connection itself failed
(the probe-to-use race). -/
inductive ProcRaw where
  | row (id status : Int) (message : String)
  | noRow
  | driverError (msg : String)
  | connectFail
deriving DecidableEq, Repr

/-- call_stored_procedure of app.py. Every failure path raises HTTPException
with status 500: a psycopg2 driver error is wrapped as "Database error: ...";
a missing result row raises a plain Exception that the second handler wraps as
"Stored procedure error: ..."; an HTTPException(503) escaping
get_db_connection is likewise caught by the generic handler (it is not a
psycopg2.Error) and re-wrapped with status 500. On success the result row is
returned as (id, status, message). -/
def call_stored_procedure : ProcRaw → Except HTTPError (Int × Int × String)
  | .row i s m => .ok (i, s, m)
  | .noRow =>
      .error ⟨500, "Stored procedure error: No result from stored procedure"⟩
  | .driverError m => .error ⟨500, "Database error: " ++ m⟩
  | .connectFail =>
      .error ⟨500, "Stored procedure error: 503: Database connection failed"⟩

/-- Successful payload of POST /add: the status message plus the data object
carrying the assigned id and the new total count. -/
structure AddOk where
  message : String
  id : Option Int
  total_items : Nat
deriving DecidableEq, Repr

/-- Observable outcome of one add_item call: the Registry afterwards, the
contents written to the File Store by this request (none when save_to_file was
not reached), and the HTTP response. -/
structure AddOutcome where
  store : List Item
  fileSaved : Option (List Item)
  response : Except HTTPError AddOk

/-- add_item of app.py. Control flow of the source: (1) duplicate check
against the in-memory store raises 400; (2) test_db_connection; (3) if
available, call_stored_procedure — a result with status 0 raises 400 with the
procedure's message, and any HTTPException from the call is re-raised by the
inner "except HTTPException: raise" arm (every failure of
call_stored_procedure IS an HTTPException, so the memory-only fallback arm
"except Exception" on lines 188-197 is unreachable from the insert call and
the error propagates to the client); (4) if unavailable, the item is built
with the client-supplied request id and the degraded message; (5) on success
the item is appended and the store saved to file. -/
def add_item (store : List Item) (request : AddItemRequest)
    (db_available : Bool) (raw : ProcRaw) : AddOutcome :=
  if check_duplicate_in_memory store request.code request.unit request.age
      request.cost then
    ⟨store, none, .error ⟨400, "Duplicate item detected in memory store"⟩⟩
  else if db_available then
    match call_stored_procedure raw with
    | .ok (row_id, status, message) =>
        if status == 0 then
          ⟨store, none, .error ⟨400, message⟩⟩
        else
          let item : Item :=
            ⟨some row_id, request.code, request.unit, request.age,
              request.cost⟩
          let store' := store ++ [item]
          ⟨store', some store', .ok ⟨message, item.id, store'.length⟩⟩
    | .error e => ⟨store, none, .error e⟩
  else
    let item : Item :=
      ⟨some request.id, request.code, request.unit, request.age, request.cost⟩
    let store' := store ++ [item]
    ⟨store', some store',
      .ok ⟨"Item added to memory only (database unavailable)", item.id,
        store'.length⟩⟩

/-- Sort field accepted by POST /snapshot (SortRequest's sort_by literal). -/
inductive SortField where
  | unit
  | age
  | cost
deriving DecidableEq, Repr

/-- The sort key getattr(x, request.sort_by) as a rational. -/
def sortKey : SortField → Item → ℚ
  | .unit, item => (item.unit : ℚ)
  | .age, item => (item.age : ℚ)
  | .cost, item => item.cost

/-- Comparison used by Python sorted with the given key. -/
def snapshotLe (f : SortField) (a b : Item) : Bool :=
  decide (sortKey f a ≤ sortKey f b)

/-- Observable outcome of one get_snapshot call: the Registry afterwards (the
handler never reassigns it), what was written to the File Store (the handler
never calls save_to_file), and the returned sequence. -/
structure SnapshotOutcome where
  store : List Item
  fileSaved : Option (List Item)
  items : List Item

/-- get_snapshot of app.py: an empty store returns [] at once; otherwise
Python's sorted (a stable sort, modelled by mergeSort) by the requested field.
No mutation, no persistence. -/
def get_snapshot (store : List Item) (request : SortField) : SnapshotOutcome :=
  if store.isEmpty then ⟨store, none, []⟩
  else ⟨store, none, store.mergeSort (snapshotLe request)⟩

/-- Outcome of the direct database statement attempted by remove_item and
clear_items after a successful probe: the connection/cursor setup itself
failed before conn and cur were bound, the statement executed (for delete,
with the reported row count), or the statement failed after conn and cur were
bound. -/
inductive DbExecOutcome where
  | connectFail
  | execOk (rows : Nat)
  | execFail
deriving DecidableEq, Repr

/-- Observable outcome of one remove_item call: the Registry afterwards, what
this request wrote to the File Store, whether the database was consulted at
all (probe or statement), and the HTTP response (on success, the message and
remaining_items). -/
structure RemoveOutcome where
  store : List Item
  fileSaved : Option (List Item)
  dbConsulted : Bool
  response : Except HTTPError (String × Nat)

/-- remove_item of app.py: first the store is reassigned to the list with
every item of the requested id filtered out; if the length did not change a
404 is raised before the database is ever consulted. Otherwise the database
is probed; if available and the connection/cursor setup fails, the except arm
executes conn.rollback() with conn unbound (UnboundLocalError) and the finally
arm hits cur.close() likewise unbound, so the outer handler answers 500
"Failed to remove item" without reaching save_to_file; a failure of the
delete statement itself after conn and cur are bound is logged and tolerated.
On the tolerated paths the store is saved to file and success reported. -/
def remove_item (store : List Item) (id : Int) (db_available : Bool)
    (db : DbExecOutcome) : RemoveOutcome :=
  let filtered := store.filter fun item => item.id != some id
  if filtered.length == store.length then
    ⟨filtered, none, false, .error ⟨404, "Item not found in memory"⟩⟩
  else if db_available then
    match db with
    | .connectFail =>
        ⟨filtered, none, true, .error ⟨500, "Failed to remove item"⟩⟩
    | .execOk _ =>
        ⟨filtered, some filtered, true,
          .ok ("Item " ++ toString id ++ " removed successfully",
            filtered.length)⟩
    | .execFail =>
        ⟨filtered, some filtered, true,
          .ok ("Item " ++ toString id ++ " removed successfully",
            filtered.length)⟩
  else
    ⟨filtered, some filtered, true,
      .ok ("Item " ++ toString id ++ " removed successfully",
        filtered.length)⟩

/-- Observable outcome of one clear_items call: the Registry afterwards, what
this request wrote to the File Store, and the HTTP response (on success, the
message and items_cleared). -/
structure ClearOutcome where
  store : List Item
  fileSaved : Option (List Item)
  response : Except HTTPError (String × Nat)

/-- clear_items of app.py: the count is captured and the store reset to empty
unconditionally; then the database is probed, and exactly as in remove_item a
connection/cursor setup failure after a successful probe crashes the cleanup
code on the unbound conn/cur locals, so the outer handler answers 500
"Failed to clear items" without persisting; a failure of the truncate itself
is tolerated. On the tolerated paths the empty store is saved to file. -/
def clear_items (store : List Item) (db_available : Bool)
    (db : DbExecOutcome) : ClearOutcome :=
  let items_count := store.length
  if db_available then
    match db with
    | .connectFail => ⟨[], none, .error ⟨500, "Failed to clear items"⟩⟩
    | .execOk _ =>
        ⟨[], some [],
          .ok ("All items cleared successfully (" ++ toString items_count ++
            " items removed)", items_count)⟩
    | .execFail =>
        ⟨[], some [],
          .ok ("All items cleared successfully (" ++ toString items_count ++
            " items removed)", items_count)⟩
  else
    ⟨[], some [],
      .ok ("All items cleared successfully (" ++ toString items_count ++
        " items removed)", items_count)⟩

/-- JSON documents, as written and read by save_to_file / load_from_file. -/
inductive Json where
  | null
  | num (q : ℚ)
  | str (s : String)
  | arr (elems : List Json)
  | obj (fields : List (String × Json))

/-- Dictionary access data[key] on a JSON object (none when the document is
not an object or the key is absent). -/
def Json.getField : Json → String → Option Json
  | .obj fields, key => fields.lookup key
  | _, _ => none

/-- Serialization of the optional id field by item.dict(): None becomes JSON
null, an int becomes a JSON number. -/
def encodeId : Option Int → Json
  | none => .null
  | some i => .num (i : ℚ)

/-- item.dict() as serialized by json.dump: a JSON object with the five item
fields. (save_to_file uses item.dict(), not item.json(), so the Config
json_encoders rounding never applies and the cost is written exactly.) -/
def itemToJson (item : Item) : Json :=
  .obj [("id", encodeId item.id), ("code", .str item.code),
    ("unit", .num (item.unit : ℚ)), ("age", .num (item.age : ℚ)),
    ("cost", .num item.cost)]

/-- save_to_file of app.py: the document holding the full item list plus a
generation timestamp, overwriting the file as a whole. -/
def save_to_file (store : List Item) (timestamp : String) : Json :=
  .obj [("items", .arr (store.map itemToJson)), ("timestamp", .str timestamp)]

/-- Reading an int field back through pydantic: only an integral JSON number
is accepted. -/
def decodeInt : Json → Option Int
  | .num q => if q.den = 1 then some q.num else none
  | _ => none

/-- Reading the Optional[int] id back: null gives None, an integral number
gives the int. -/
def decodeId : Json → Option (Option Int)
  | .null => some none
  | .num q => if q.den = 1 then some (some q.num) else none
  | _ => none

/-- Reading a string field back. -/
def decodeStr : Json → Option String
  | .str s => some s
  | _ => none

/-- Reading the float cost back. -/
def decodeCost : Json → Option ℚ
  | .num q => some q
  | _ => none

/-- Pydantic field constraints on Item: code has min_length 1, unit and age
are ge 0, cost is ge 0. -/
def validItem (item : Item) : Prop :=
  1 ≤ item.code.length ∧ 0 ≤ item.unit ∧ 0 ≤ item.age ∧ 0 ≤ item.cost

instance (item : Item) : Decidable (validItem item) := by
  unfold validItem
  infer_instance

/-- Item(**item) of app.py: field lookup (a missing id defaults to None, any
other missing field is a validation error) followed by the pydantic
constraint checks. -/
def jsonToItem (j : Json) : Option Item := do
  let id ← match j.getField "id" with
    | none => some (none : Option Int)
    | some v => decodeId v
  let code ← (j.getField "code").bind decodeStr
  let unit ← (j.getField "unit").bind decodeInt
  let age ← (j.getField "age").bind decodeInt
  let cost ← (j.getField "cost").bind decodeCost
  let item : Item := ⟨id, code, unit, age, cost⟩
  if validItem item then some item else none

/-- The list comprehension [Item(**item) for item in ...]: all-or-nothing —
one failing element aborts the whole load. -/
def decodeItems : List Json → Option (List Item)
  | [] => some []
  | j :: rest =>
      match jsonToItem j, decodeItems rest with
      | some item, some items => some (item :: items)
      | _, _ => none

/-- load_from_file of app.py: an absent file yields the empty store; a
document without an "items" key yields data.get("items", []) = []; a
non-array "items" value or any per-item validation failure raises inside the
try and the handler resets the store to empty. -/
def load_from_file : Option Json → List Item
  | none => []
  | some j =>
      match j.getField "items" with
      | none => []
      | some (.arr elems) =>
          match decodeItems elems with
          | some items => items
          | none => []
      | some _ => []

/-! Helper lemmas shared by several results. -/

/-- Shape of a memory-only add: with the duplicate check false and the probe
false, the handler appends the item built from the client request and saves. -/
lemma add_item_memory_only (store : List Item) (request : AddItemRequest)
    (raw : ProcRaw)
    (hdup : check_duplicate_in_memory store request.code request.unit
      request.age request.cost = false) :
    add_item store request false raw =
      ⟨store ++ [⟨some request.id, request.code, request.unit, request.age,
          request.cost⟩],
        some (store ++ [⟨some request.id, request.code, request.unit,
          request.age, request.cost⟩]),
        .ok ⟨"Item added to memory only (database unavailable)",
          some request.id, store.length + 1⟩⟩ := by
  unfold add_item
  rw [hdup]
  simp

/-- In every branch of remove_item the resulting Registry is the input with
all items of the requested id filtered out. -/
lemma remove_item_store_eq (store : List Item) (id : Int)
    (db_available : Bool) (db : DbExecOutcome) :
    (remove_item store id db_available db).store =
      store.filter fun item => item.id != some id := by
  simp only [remove_item]
  repeat' split
  all_goals rfl

/-- Membership in a snapshot is membership in the Registry. -/
lemma mem_get_snapshot (store : List Item) (f : SortField) (item : Item) :
    item ∈ (get_snapshot store f).items ↔ item ∈ store := by
  unfold get_snapshot
  split
  · next h =>
      rw [List.isEmpty_iff] at h
      subst h
      simp
  · exact (List.mergeSort_perm store (snapshotLe f)).mem_iff

lemma snapshotLe_trans (f : SortField) : ∀ a b c : Item,
    snapshotLe f a b = true → snapshotLe f b c = true →
    snapshotLe f a c = true := by
  intro a b c hab hbc
  simp only [snapshotLe, decide_eq_true_eq] at *
  exact le_trans hab hbc

lemma snapshotLe_total (f : SortField) : ∀ a b : Item,
    (snapshotLe f a b || snapshotLe f b a) = true := by
  intro a b
  simp only [snapshotLe, Bool.or_eq_true, decide_eq_true_eq]
  exact le_total _ _

/-! C1 and C9 evaluate the handlers at their failing inputs. -/

/-- C1: the claim says an insert failing with a driver error after a
successful probe makes add fall back to memory-only and succeed; the code
instead propagates the HTTPException(500) produced by call_stored_procedure
(its memory-only fallback arm is unreachable from the insert call), so the
request fails with 500, nothing is appended and nothing is saved. -/
theorem add_item_driver_error_returns_500 :
    add_item [] ⟨7, "A1", 5, 2, 10⟩ true (.driverError "connection reset") =
      ⟨[], none, .error ⟨500, "Database error: connection reset"⟩⟩ := by
  rfl

/-- C9: the claim says clear succeeds unconditionally; when the probe
succeeds and the connection/cursor setup then fails, the cleanup code crashes
on the unbound conn/cur locals and the handler answers 500 without persisting
the emptied Registry. -/
theorem clear_items_connect_race_returns_500 :
    clear_items [⟨some 1, "A1", 5, 2, 10⟩] true .connectFail =
      ⟨[], none, .error ⟨500, "Failed to clear items"⟩⟩ := by
  rfl

/-! C6 and C7: behaviour of add under an unreachable database, and under a
server-side rejection. -/

/-- C6: a non-duplicate add issued while the probe reports the database
unreachable succeeds memory-only: item built with the client-supplied id,
appended, persisted, and the response carries the id, the new total count and
the degraded-mode message. -/
theorem add_item_db_unreachable_memory_only (store : List Item)
    (request : AddItemRequest) (raw : ProcRaw)
    (hdup : check_duplicate_in_memory store request.code request.unit
      request.age request.cost = false) :
    add_item store request false raw =
      ⟨store ++ [⟨some request.id, request.code, request.unit, request.age,
          request.cost⟩],
        some (store ++ [⟨some request.id, request.code, request.unit,
          request.age, request.cost⟩]),
        .ok ⟨"Item added to memory only (database unavailable)",
          some request.id, store.length + 1⟩⟩ :=
  add_item_memory_only store request raw hdup

/-- C6 witness at a concrete input. -/
theorem add_item_db_unreachable_memory_only_witness :
    add_item [] ⟨1, "A1", 5, 2, 10⟩ false .noRow =
      ⟨[⟨some 1, "A1", 5, 2, 10⟩], some [⟨some 1, "A1", 5, 2, 10⟩],
        .ok ⟨"Item added to memory only (database unavailable)", some 1, 1⟩⟩ := by
  have h := add_item_db_unreachable_memory_only [] ⟨1, "A1", 5, 2, 10⟩ .noRow
    (by simp [check_duplicate_in_memory])
  simpa using h

/-- C7: when the stored procedure answers statusCode 0, the request fails 400
with the procedure's message and neither the Registry nor the File Store is
touched. -/
theorem add_item_status_zero_rejected (store : List Item)
    (request : AddItemRequest) (i : Int) (m : String)
    (hdup : check_duplicate_in_memory store request.code request.unit
      request.age request.cost = false) :
    add_item store request true (.row i 0 m) =
      ⟨store, none, .error ⟨400, m⟩⟩ := by
  unfold add_item
  rw [hdup]
  rfl

/-- C7 witness at a concrete input. -/
theorem add_item_status_zero_rejected_witness :
    add_item [] ⟨1, "A1", 5, 2, 10⟩ true (.row 42 0 "Duplicate in database") =
      ⟨[], none, .error ⟨400, "Duplicate in database"⟩⟩ :=
  add_item_status_zero_rejected [] ⟨1, "A1", 5, 2, 10⟩ 42 "Duplicate in database"
    (by simp [check_duplicate_in_memory])

/-! C2: the in-memory duplicate check. -/

/-- C2: an add whose (code, unit, age, cost) matches an existing Registry
item — code, unit and age equal, cost within the strict 0.01 tolerance — is
rejected with the 400 duplicate error on every database path, and the
Registry and File Store are untouched. -/
theorem add_item_duplicate_rejected (store : List Item)
    (request : AddItemRequest) (db_available : Bool) (raw : ProcRaw)
    (item : Item) (hmem : item ∈ store) (hcode : item.code = request.code)
    (hunit : item.unit = request.unit) (hage : item.age = request.age)
    (hcost : fabs (item.cost - request.cost) < 1 / 100) :
    add_item store request db_available raw =
      ⟨store, none,
        .error ⟨400, "Duplicate item detected in memory store"⟩⟩ := by
  have hdup : check_duplicate_in_memory store request.code request.unit
      request.age request.cost = true := by
    unfold check_duplicate_in_memory
    rw [List.any_eq_true]
    refine ⟨item, hmem, ?_⟩
    rw [Bool.and_eq_true, Bool.and_eq_true, Bool.and_eq_true]
    refine ⟨⟨⟨?_, ?_⟩, ?_⟩, ?_⟩
    · simp [hcode]
    · simp [hunit]
    · simp [hage]
    · simpa using hcost
  unfold add_item
  rw [hdup]
  rfl

/-- C2 witness: against a Registry holding code "A1", unit 5, age 2, cost
10.00, adding cost 10.004 is rejected as a duplicate while adding cost 10.02
succeeds and appends. -/
theorem add_item_duplicate_rejected_witness :
    add_item [⟨some 1, "A1", 5, 2, 10.0⟩] ⟨2, "A1", 5, 2, 10.004⟩ false
        .noRow =
      ⟨[⟨some 1, "A1", 5, 2, 10.0⟩], none,
        .error ⟨400, "Duplicate item detected in memory store"⟩⟩ ∧
    (add_item [⟨some 1, "A1", 5, 2, 10.0⟩] ⟨2, "A1", 5, 2, 10.02⟩ false
        .noRow).response =
      .ok ⟨"Item added to memory only (database unavailable)", some 2, 2⟩ := by
  constructor
  · exact add_item_duplicate_rejected [⟨some 1, "A1", 5, 2, 10.0⟩]
      ⟨2, "A1", 5, 2, 10.004⟩ false .noRow ⟨some 1, "A1", 5, 2, 10.0⟩
      (by simp) rfl rfl rfl (by norm_num [fabs])
  · have hdup : check_duplicate_in_memory [⟨some 1, "A1", 5, 2, 10.0⟩] "A1" 5
        2 10.02 = false := by
      norm_num [check_duplicate_in_memory, fabs]
    rw [add_item_memory_only [⟨some 1, "A1", 5, 2, 10.0⟩]
      ⟨2, "A1", 5, 2, 10.02⟩ .noRow hdup]
    rfl

/-! C8: removing an absent id. -/

/-- C8: when no Registry item bears the requested id, remove answers 404
decided purely in memory — the database is never consulted — and the
Registry contents and the File Store are untouched. -/
theorem remove_item_absent_id_404 (store : List Item) (id : Int)
    (db_available : Bool) (db : DbExecOutcome)
    (habs : ∀ item ∈ store, item.id ≠ some id) :
    remove_item store id db_available db =
      ⟨store, none, false, .error ⟨404, "Item not found in memory"⟩⟩ := by
  have hfilter : store.filter (fun item => item.id != some id) = store := by
    rw [List.filter_eq_self]
    intro a ha
    simpa using habs a ha
  unfold remove_item
  simp [hfilter]

/-- C8 witness at a concrete input. -/
theorem remove_item_absent_id_404_witness :
    remove_item [⟨some 2, "B2", 6, 3, 20⟩] 1 true (.execOk 0) =
      ⟨[⟨some 2, "B2", 6, 3, 20⟩], none, false,
        .error ⟨404, "Item not found in memory"⟩⟩ :=
  remove_item_absent_id_404 [⟨some 2, "B2", 6, 3, 20⟩] 1 true (.execOk 0)
    (by decide)

/-! C10: ids are not unique in the Registry, and remove deletes every item
bearing the requested id. -/

/-- C10: the duplicate check gates add only on (code, unit, age, cost), so a
memory-only add appends an item carrying the client-supplied id whatever ids
the Registry already holds (duplicated ids included); and in every branch of
remove the Registry becomes the input with every item of the requested id
filtered out, so one remove deletes all items bearing that id. -/
theorem registry_duplicate_ids_and_remove_all :
    (∀ (store : List Item) (request : AddItemRequest) (raw : ProcRaw),
      check_duplicate_in_memory store request.code request.unit request.age
          request.cost = false →
        (add_item store request false raw).store =
          store ++ [⟨some request.id, request.code, request.unit, request.age,
            request.cost⟩]) ∧
    (∀ (store : List Item) (x : Int) (db_available : Bool)
        (db : DbExecOutcome),
      (remove_item store x db_available db).store =
        store.filter fun item => item.id != some x) := by
  constructor
  · intro store request raw hdup
    rw [add_item_memory_only store request raw hdup]
  · intro store x db_available db
    exact remove_item_store_eq store x db_available db

/-- C10 witness: adding a second item with the already-present id 1 succeeds
and both items carry id 1; removing id 1 then empties the Registry in one
call. -/
theorem registry_duplicate_ids_and_remove_all_witness :
    (add_item [⟨some 1, "A1", 5, 2, 10⟩] ⟨1, "B2", 6, 3, 20⟩ false
        .noRow).store =
      [⟨some 1, "A1", 5, 2, 10⟩, ⟨some 1, "B2", 6, 3, 20⟩] ∧
    (remove_item [⟨some 1, "A1", 5, 2, 10⟩, ⟨some 1, "B2", 6, 3, 20⟩] 1 false
        (.execOk 0)).store = [] := by
  constructor
  · have h := registry_duplicate_ids_and_remove_all.1
      [⟨some 1, "A1", 5, 2, 10⟩] ⟨1, "B2", 6, 3, 20⟩ .noRow
      (by norm_num [check_duplicate_in_memory, fabs])
    simpa using h
  · have h := registry_duplicate_ids_and_remove_all.2
      [⟨some 1, "A1", 5, 2, 10⟩, ⟨some 1, "B2", 6, 3, 20⟩] 1 false (.execOk 0)
    simpa using h

/-! C3: removing a present id. -/

/-- When exactly one Registry item bears the requested id, the filtered list
is one element shorter. -/
lemma remove_filter_length (store : List Item) (x : Int)
    (h : store.countP (fun item => item.id == some x) = 1) :
    (store.filter fun item => item.id != some x).length + 1 = store.length := by
  have hsplit := List.length_eq_countP_add_countP
    (fun item : Item => item.id == some x) store
  have hfun : (fun item : Item => decide ¬((item.id == some x) = true)) =
      fun item : Item => item.id != some x := by
    funext a
    cases hab : a.id == some x <;> simp [bne, hab]
  rw [hfun] at hsplit
  rw [← List.countP_eq_length_filter]
  omega

/-- C3 counterexample: the Registry [id 1, id 1] contains an item with id 1,
yet removing id 1 drops the size from 2 to 0, not by exactly one; and with a
single id-1 item, a remove during which the connection fails right after a
successful probe does not succeed but answers 500. -/
theorem remove_item_present_id_counterexample :
    ((⟨some 1, "A1", 5, 2, 10⟩ : Item) ∈
        ([⟨some 1, "A1", 5, 2, 10⟩, ⟨some 1, "B2", 6, 3, 20⟩] : List Item) ∧
      (remove_item [⟨some 1, "A1", 5, 2, 10⟩, ⟨some 1, "B2", 6, 3, 20⟩] 1
          false (.execOk 1)).store.length = 0 ∧
      ([⟨some 1, "A1", 5, 2, 10⟩, ⟨some 1, "B2", 6, 3, 20⟩] :
          List Item).length = 2) ∧
    (remove_item [⟨some 1, "A1", 5, 2, 10⟩] 1 true .connectFail).response =
      .error ⟨500, "Failed to remove item"⟩ := by
  refine ⟨⟨?_, ?_, ?_⟩, ?_⟩
  · simp
  · rfl
  · rfl
  · rfl

/-- C3 amended: for every Registry containing exactly one item with id x — and
provided the database connection does not fail between the successful probe
and the delete statement — remove succeeds reporting the new size, decreases
the Registry size by exactly one, and x is absent from every subsequent
snapshot. -/
theorem remove_item_unique_present_id (store : List Item) (x : Int)
    (db_available : Bool) (db : DbExecOutcome)
    (huniq : store.countP (fun item => item.id == some x) = 1)
    (hrace : ¬(db_available = true ∧ db = DbExecOutcome.connectFail)) :
    ((remove_item store x db_available db).response =
      .ok ("Item " ++ toString x ++ " removed successfully",
        (remove_item store x db_available db).store.length)) ∧
    (remove_item store x db_available db).store.length + 1 = store.length ∧
    (∀ f : SortField, ∀ item ∈
        (get_snapshot ((remove_item store x db_available db).store) f).items,
      item.id ≠ some x) := by
  have hlen := remove_filter_length store x huniq
  have hne : ((store.filter fun item => item.id != some x).length ==
      store.length) = false := by
    rw [beq_eq_false_iff_ne]
    omega
  refine ⟨?_, ?_, ?_⟩
  · rw [remove_item_store_eq store x db_available db]
    simp only [remove_item, hne, Bool.false_eq_true, if_false]
    cases db_available
    · simp
    · cases db
      · exact absurd ⟨rfl, rfl⟩ hrace
      · simp
      · simp
  · rw [remove_item_store_eq store x db_available db]
    exact hlen
  · intro f item hitem
    rw [remove_item_store_eq store x db_available db] at hitem
    have hmem := (mem_get_snapshot _ f item).mp hitem
    have := (List.mem_filter.mp hmem).2
    simpa using this

/-- C3 witness at a concrete input. -/
theorem remove_item_unique_present_id_witness :
    ((remove_item [⟨some 1, "A1", 5, 2, 10⟩, ⟨some 2, "B2", 6, 3, 20⟩] 1
        false (.execOk 0)).response =
      .ok ("Item " ++ toString (1 : Int) ++ " removed successfully",
        (remove_item [⟨some 1, "A1", 5, 2, 10⟩, ⟨some 2, "B2", 6, 3, 20⟩] 1
          false (.execOk 0)).store.length)) ∧
    (remove_item [⟨some 1, "A1", 5, 2, 10⟩, ⟨some 2, "B2", 6, 3, 20⟩] 1 false
        (.execOk 0)).store.length + 1 =
      ([⟨some 1, "A1", 5, 2, 10⟩, ⟨some 2, "B2", 6, 3, 20⟩] :
        List Item).length ∧
    (∀ f : SortField, ∀ item ∈
        (get_snapshot ((remove_item [⟨some 1, "A1", 5, 2, 10⟩,
          ⟨some 2, "B2", 6, 3, 20⟩] 1 false (.execOk 0)).store) f).items,
      item.id ≠ some 1) :=
  remove_item_unique_present_id
    [⟨some 1, "A1", 5, 2, 10⟩, ⟨some 2, "B2", 6, 3, 20⟩] 1 false (.execOk 0)
    (by decide) (by simp)

/-! C4: the snapshot read. -/

lemma get_snapshot_items_eq (store : List Item) (f : SortField) :
    (get_snapshot store f).items = store.mergeSort (snapshotLe f) := by
  unfold get_snapshot
  split
  · next h =>
      rw [List.isEmpty_iff] at h
      subst h
      simp
  · rfl

lemma get_snapshot_sorted (store : List Item) (f : SortField) :
    List.Pairwise (fun a b => sortKey f a ≤ sortKey f b)
      (get_snapshot store f).items := by
  rw [get_snapshot_items_eq]
  have h := List.sorted_mergeSort (snapshotLe_trans f) (snapshotLe_total f)
    store
  exact h.imp fun hab => by simpa [snapshotLe] using hab

/-- Stability of the snapshot sort: for any key value, the snapshot's items
of that key are the Registry's items of that key in the Registry's order. -/
lemma get_snapshot_stable (store : List Item) (f : SortField) (v : ℚ) :
    ((get_snapshot store f).items.filter fun item =>
      decide (sortKey f item = v)) =
      store.filter fun item => decide (sortKey f item = v) := by
  rw [get_snapshot_items_eq]
  have hpair : (store.filter fun item =>
      decide (sortKey f item = v)).Pairwise
      (fun a b => snapshotLe f a b = true) := by
    apply List.pairwise_of_forall_mem_list
    intro a ha b hb
    have ha' := (List.mem_filter.mp ha).2
    have hb' := (List.mem_filter.mp hb).2
    simp only [decide_eq_true_eq] at ha' hb'
    simp [snapshotLe, ha', hb']
  have hsub := List.sublist_mergeSort (snapshotLe_trans f)
    (snapshotLe_total f) hpair (List.filter_sublist store)
  have hidem : ((store.filter fun item =>
      decide (sortKey f item = v)).filter fun item =>
      decide (sortKey f item = v)) =
      store.filter fun item => decide (sortKey f item = v) :=
    List.filter_eq_self.mpr fun a ha => (List.mem_filter.mp ha).2
  have hsub2 := List.Sublist.filter
    (fun item => decide (sortKey f item = v)) hsub
  rw [hidem] at hsub2
  have hlen := ((List.mergeSort_perm store (snapshotLe f)).filter
    (fun item => decide (sortKey f item = v))).length_eq
  exact (hsub2.eq_of_length hlen.symm).symm

/-- C4: for every Registry and sort field, the snapshot is a permutation of
the Registry that is non-decreasing in that field; items of equal key keep
their Registry order; the empty Registry yields the empty sequence; and the
handler neither mutates the Registry nor writes the File Store. -/
theorem get_snapshot_spec (store : List Item) (f : SortField) :
    (get_snapshot store f).items.Perm store ∧
    List.Pairwise (fun a b => sortKey f a ≤ sortKey f b)
      (get_snapshot store f).items ∧
    (∀ v : ℚ, ((get_snapshot store f).items.filter fun item =>
        decide (sortKey f item = v)) =
      store.filter fun item => decide (sortKey f item = v)) ∧
    (get_snapshot ([] : List Item) f).items = [] ∧
    (get_snapshot store f).store = store ∧
    (get_snapshot store f).fileSaved = none := by
  refine ⟨?_, get_snapshot_sorted store f, get_snapshot_stable store f, rfl,
    ?_, ?_⟩
  · rw [get_snapshot_items_eq]
    exact List.mergeSort_perm store (snapshotLe f)
  · unfold get_snapshot
    split <;> rfl
  · unfold get_snapshot
    split <;> rfl

/-! C5: the File Store round trip. -/

lemma jsonToItem_itemToJson (item : Item) (h : validItem item) :
    jsonToItem (itemToJson item) = some item := by
  obtain ⟨id, code, unit, age, cost⟩ := item
  cases id <;>
    simp [jsonToItem, itemToJson, Json.getField, List.lookup, decodeId,
      decodeInt, decodeStr, decodeCost, encodeId, Rat.den_intCast,
      Rat.num_intCast, h]

lemma decodeItems_map (items : List Item) (h : ∀ i ∈ items, validItem i) :
    decodeItems (items.map itemToJson) = some items := by
  induction items with
  | nil => rfl
  | cons a rest ih =>
      have ha := h a (List.mem_cons_self a rest)
      have hrest := ih fun i hi => h i (List.mem_cons_of_mem a hi)
      simp only [List.map_cons, decodeItems]
      rw [jsonToItem_itemToJson a ha, hrest]

/-- C5: loading from the File Store immediately after a successful save
reproduces exactly the saved Registry contents — load after save is the
identity on the item list (for lists of items satisfying the pydantic field
constraints, the only ones the handlers ever store). -/
theorem load_after_save_roundtrip (items : List Item) (ts : String)
    (h : ∀ i ∈ items, validItem i) :
    load_from_file (some (save_to_file items ts)) = items := by
  unfold load_from_file save_to_file Json.getField
  simp [List.lookup, decodeItems_map items h]

/-- C5 witness at a concrete input. -/
theorem load_after_save_roundtrip_witness :
    load_from_file (some (save_to_file
      [⟨some 1, "A1", 5, 2, 10⟩, ⟨none, "B2", 6, 3, 20.5⟩] "2024-01-01")) =
      [⟨some 1, "A1", 5, 2, 10⟩, ⟨none, "B2", 6, 3, 20.5⟩] :=
  load_after_save_roundtrip
    [⟨some 1, "A1", 5, 2, 10⟩, ⟨none, "B2", 6, 3, 20.5⟩] "2024-01-01" (by
      intro i hi
      simp only [List.mem_cons, List.not_mem_nil, or_false] at hi
      rcases hi with rfl | rfl
      · exact ⟨by decide, by decide, by decide, by norm_num⟩
      · exact ⟨by decide, by decide, by decide, by norm_num⟩)

end ItemApp
